import Mathlib

/-!
Shallow embedding of the MiniFleet backend (src/backend/server.py) and proofs
about its spec.  Python dictionaries with possibly-absent keys are modelled as
structures of `Option` fields; a direct dictionary index (`d["k"]`) on an
absent key is modelled as `Except.error` (Python `KeyError`, which the
endpoint's generic exception handler turns into an HTTP 500); `d.get(k, 0)`
is modelled as `Option.getD`.  Python floats are modelled as exact rationals
(`ℚ`); `round(x, 2)` is modelled as rounding `x * 100` to the nearest integer
(ties do not occur in any input considered here).  Real time (timestamps) is
passed in as an explicit parameter or omitted where no claim depends on it.
-/

namespace MiniFleet

/-- HTTP error produced by an endpoint (FastAPI `HTTPException(status_code, detail)`). -/
structure HTTPError where
  status : Nat
  detail : String
deriving DecidableEq, Repr

/-- Engine-level failure as distinguished by the endpoints: `docker.errors.NotFound`
versus any other exception (carrying its message). -/
inductive EngineErr where
  | notFound : EngineErr
  | fail : String → EngineErr
deriving DecidableEq, Repr

/-- Boolean success test for `Except` results. -/
def exOk {ε α : Type} : Except ε α → Bool
  | .ok _ => true
  | .error _ => false

/-- Python dictionary lookup `d.get(k)` on a string-keyed table modelled as an
association list (keys are unique, mirroring dict semantics). -/
def dictGet {C : Type} (l : List (String × C)) (k : String) : Option C :=
  (l.find? (fun p => p.1 == k)).map Prod.snd

/-- Python `s.split(sep, 1)` guarded by `sep in s`: splits on the first
occurrence of `sep`, or `none` when `sep` does not occur. -/
def splitFirst (sep : String) (s : String) : Option (String × String) :=
  match s.splitOn sep with
  | [] => none
  | [_] => none
  | x :: rest => some (x, String.intercalate sep rest)

-- ========== RAW STATS DOCUMENT AND METRICS (get_container_stats) ==========

/-- `cpu_usage` sub-document of a CPU stats block.  `total_usage` and
`percpu_usage` are indexed directly in the source (no fallback), hence
modelled as `Option` fields whose absence is a `KeyError`. -/
structure CpuUsage where
  total_usage : Option Int
  percpu_usage : Option (List Int)
deriving DecidableEq, Repr

/-- `cpu_stats` / `precpu_stats` sub-document.  `cpu_usage` presence is
membership-tested by the source; `system_cpu_usage` is indexed directly. -/
structure CpuStats where
  cpu_usage : Option CpuUsage
  system_cpu_usage : Option Int
deriving DecidableEq, Repr

/-- `memory_stats` sub-document; both fields read via `.get(key, 0)`. -/
structure MemoryStats where
  usage : Option Int
  limit : Option Int
deriving DecidableEq, Repr

/-- One entry of the `networks` sub-document (per-interface counters),
read via `.get(key, 0)`. -/
structure NetworkIf where
  rx_bytes : Option Int
  tx_bytes : Option Int
deriving DecidableEq, Repr

/-- One entry of the raw document's block-I/O recursive list
(`blkio_stats.io_service_bytes_recursive`): an operation kind and a byte
value.  The raw engine document carries this data; the source code of
`get_container_stats` never reads it. -/
structure BlkioEntry where
  op : String
  value : Int
deriving DecidableEq, Repr

/-- Raw stats document returned by `container.stats(stream=False)`, restricted
to the sub-documents the endpoint (or the spec) mentions.  Top-level keys are
membership-tested by the source, hence `Option` fields.  `blkio_stats` is part
of the raw engine document but is never accessed by the code. -/
structure RawStats where
  cpu_stats : Option CpuStats
  precpu_stats : Option CpuStats
  memory_stats : Option MemoryStats
  networks : Option (List NetworkIf)
  blkio_stats : Option (List BlkioEntry)
deriving DecidableEq, Repr

/-- Python `round(x, 2)` on the exact rational model: round `x * 100` to the
nearest integer and divide back. -/
def round2 (x : ℚ) : ℚ :=
  ((round (x * 100) : ℤ) : ℚ) / 100

/-- Result of the stats endpoint's metrics computation (the pure part of the
returned document; `container_id`, `server_id` and the wall-clock timestamp
are request echoes handled by the endpoint wrapper). -/
structure StatsResult where
  cpu_percent : ℚ
  memory_usage : Int
  memory_limit : Int
  memory_percent : ℚ
  network_rx : Int
  network_tx : Int
deriving DecidableEq, Repr

/-- CPU section of the metrics computation in `get_container_stats`
(server.py lines 513-524), before the final rounding.  Mirrors the source:
`cpu_stats`/`precpu_stats` and their `cpu_usage` keys are membership-tested;
`total_usage` (both snapshots), `system_cpu_usage` (both snapshots) and, when
the system delta is strictly positive, `percpu_usage` (current snapshot) are
indexed directly and raise `KeyError` when absent. -/
def cpuSection (stats : RawStats) : Except String ℚ :=
  match stats.cpu_stats, stats.precpu_stats with
  | some cs, some ps =>
    match cs.cpu_usage, ps.cpu_usage with
    | some cu, some pu =>
      match cu.total_usage, pu.total_usage with
      | some ct, some pt =>
        match cs.system_cpu_usage, ps.system_cpu_usage with
        | some s1, some s0 =>
          if s1 - s0 > 0 then
            match cu.percpu_usage with
            | some l =>
              Except.ok ((((ct - pt : Int) : ℚ) / ((s1 - s0 : Int) : ℚ)) * (l.length : ℚ) * 100)
            | none => Except.error "KeyError: percpu_usage"
          else
            Except.ok 0
        | _, _ => Except.error "KeyError: system_cpu_usage"
      | _, _ => Except.error "KeyError: total_usage"
    | _, _ => Except.ok 0
  | _, _ => Except.ok 0

/-- Metrics computation of `get_container_stats` (server.py lines 513-556):
CPU section, then memory (with `.get(_, 0)` fallbacks and the `limit > 0`
guard), then network totals summed over the interfaces, and the two
percentages rounded to 2 decimal digits at the return boundary. -/
def computeStats (stats : RawStats) : Except String StatsResult :=
  match cpuSection stats with
  | Except.error e => Except.error e
  | Except.ok cpuRaw =>
    let memory_usage : Int :=
      match stats.memory_stats with
      | some ms => ms.usage.getD 0
      | none => 0
    let memory_limit : Int :=
      match stats.memory_stats with
      | some ms => ms.limit.getD 0
      | none => 0
    let memory_percent : ℚ :=
      if memory_limit > 0 then ((memory_usage : ℚ) / (memory_limit : ℚ)) * 100 else 0
    let network_rx : Int :=
      match stats.networks with
      | some ifs => ifs.foldl (fun a i => a + i.rx_bytes.getD 0) 0
      | none => 0
    let network_tx : Int :=
      match stats.networks with
      | some ifs => ifs.foldl (fun a i => a + i.tx_bytes.getD 0) 0
      | none => 0
    Except.ok ⟨round2 cpuRaw, memory_usage, memory_limit, round2 memory_percent,
      network_rx, network_tx⟩

/-- Characterization of when the CPU section's direct dictionary indexes all
succeed: whenever both `cpu_usage` sub-documents are present, both
`total_usage` fields and both `system_cpu_usage` fields must be present, and
the `percpu_usage` list of the current snapshot must be present when the
system delta is strictly positive. -/
def cpuLookupsOk (stats : RawStats) : Bool :=
  match stats.cpu_stats, stats.precpu_stats with
  | some cs, some ps =>
    match cs.cpu_usage, ps.cpu_usage with
    | some cu, some pu =>
      match cu.total_usage, pu.total_usage with
      | some _, some _ =>
        match cs.system_cpu_usage, ps.system_cpu_usage with
        | some s1, some s0 =>
          if s1 - s0 > 0 then cu.percpu_usage.isSome else true
        | _, _ => false
      | _, _ => false
    | _, _ => true
  | _, _ => true

/-- Modelled from the spec: the block-I/O read total the spec describes (sum
of the `value` field of entries whose `op` equals `"Read"` over the raw
document's block-I/O list, `0` when absent).  No corresponding computation
exists in the source; this definition exists only to be compared with the
code's behaviour. -/
def specBlkioReadTotal (stats : RawStats) : Int :=
  ((stats.blkio_stats.getD []).filter (fun e => e.op = "Read")).foldl
    (fun a e => a + e.value) 0

/-- Modelled from the spec: the block-I/O write total the spec describes (sum
of the `value` field of entries whose `op` equals `"Write"`). -/
def specBlkioWriteTotal (stats : RawStats) : Int :=
  ((stats.blkio_stats.getD []).filter (fun e => e.op = "Write")).foldl
    (fun a e => a + e.value) 0

-- ========== ENGINE REGISTRY AND ENDPOINT STATE ==========

/-- Persisted Docker server descriptor (the `DockerServer` pydantic model /
one document of the `docker_servers` collection). -/
structure ServerRecord where
  id : String
  name : String
  host : String
  port : Nat
  use_tls : Bool
  cert_path : Option String
  active : Bool
deriving DecidableEq, Repr

/-- Process state the endpoints depend on: the global `docker_clients` table
(engine id to live client, modelled as an association list with unique keys),
the global `default_client` (the local client, `none` when local
initialization failed), and the persisted `docker_servers` collection.
The client type `C` is abstract: clients are opaque handles. -/
structure BackendState (C : Type) where
  docker_clients : List (String × C)
  default_client : Option C
  docker_servers : List ServerRecord
deriving DecidableEq, Repr

/-- `get_docker_client` (server.py lines 129-131):
`docker_clients.get(server_id, default_client)` — the stored client when the
id is present, otherwise the default (local) client, which may itself be
`None`. -/
def get_docker_client {C : Type} (st : BackendState C) (server_id : String) : Option C :=
  match dictGet st.docker_clients server_id with
  | some c => some c
  | none => st.default_client

/-- MongoDB `delete_one({"id": id})` on the `docker_servers` collection:
removes the first record with the given id and reports the deleted count
(0 or 1). -/
def deleteOneById : List ServerRecord → String → List ServerRecord × Nat
  | [], _ => ([], 0)
  | s :: rest, sid =>
    if s.id = sid then (rest, 1)
    else
      let r := deleteOneById rest sid
      (s :: r.1, r.2)

/-- `remove_docker_server` (server.py lines 203-225): rejects `"local"` with a
400 before any mutation; deletes the persisted record (404 when none was
deleted); then closes and drops the live client entry if one exists (silently
skipped otherwise).  Returns the endpoint outcome paired with the resulting
state. -/
def remove_docker_server {C : Type} (st : BackendState C) (server_id : String) :
    Except HTTPError String × BackendState C :=
  if server_id = "local" then
    (Except.error ⟨400, "Cannot remove local server"⟩, st)
  else
    let d := deleteOneById st.docker_servers server_id
    if d.2 = 0 then
      (Except.error ⟨404, "Server not found"⟩, st)
    else
      (Except.ok "Docker server removed successfully",
        { st with
          docker_servers := d.1,
          docker_clients := st.docker_clients.filter (fun p => p.1 ≠ server_id) })

-- ========== CONSUMER ENDPOINTS (engine resolution prologue) ==========

/-- `get_containers` (server.py lines 292-329): resolve the engine (503 when
resolution yields no client), then list all containers on it.  The per-item
summary construction is folded into the engine collaborator `listAll`
(external engine client capability); any engine exception becomes a 500. -/
def get_containers_endpoint {C A : Type} (st : BackendState C)
    (listAll : C → Except String A) (server_id : String) : Except HTTPError A :=
  match get_docker_client st server_id with
  | none => Except.error ⟨503, "Docker client not available"⟩
  | some dc =>
    match listAll dc with
    | Except.ok a => Except.ok a
    | Except.error e => Except.error ⟨500, "Failed to get containers: " ++ e⟩

/-- `get_images` (server.py lines 331-361): same prologue as `get_containers`,
image listing body folded into the collaborator. -/
def get_images_endpoint {C A : Type} (st : BackendState C)
    (listImages : C → Except String A) (server_id : String) : Except HTTPError A :=
  match get_docker_client st server_id with
  | none => Except.error ⟨503, "Docker client not available"⟩
  | some dc =>
    match listImages dc with
    | Except.ok a => Except.ok a
    | Except.error e => Except.error ⟨500, "Failed to get images: " ++ e⟩

/-- `get_container_logs` (server.py lines 563-584): resolve the engine, fetch
logs, with `docker.errors.NotFound` mapped to 404 and any other engine error
to 500. -/
def get_container_logs_endpoint {C : Type} (st : BackendState C)
    (getLogs : C → Except EngineErr String) (server_id : String) :
    Except HTTPError String :=
  match get_docker_client st server_id with
  | none => Except.error ⟨503, "Docker client not available"⟩
  | some dc =>
    match getLogs dc with
    | Except.ok logs => Except.ok logs
    | Except.error EngineErr.notFound => Except.error ⟨404, "Container not found"⟩
    | Except.error (EngineErr.fail e) =>
      Except.error ⟨500, "Failed to get container logs: " ++ e⟩

/-- `restart_container` (server.py lines 626-647): resolve the engine, restart
the container (collaborator returns the container's name on success). -/
def restart_container_endpoint {C : Type} (st : BackendState C)
    (doRestart : C → Except EngineErr String) (server_id : String) :
    Except HTTPError String :=
  match get_docker_client st server_id with
  | none => Except.error ⟨503, "Docker client not available"⟩
  | some dc =>
    match doRestart dc with
    | Except.ok cname => Except.ok ("Container " ++ cname ++ " restarted successfully")
    | Except.error EngineErr.notFound => Except.error ⟨404, "Container not found"⟩
    | Except.error (EngineErr.fail e) =>
      Except.error ⟨500, "Failed to restart container: " ++ e⟩

/-- `get_container_stats` (server.py lines 502-561): resolve the engine, fetch
the raw snapshot (`NotFound` mapped to 404, other engine errors to 500), then
run the metrics computation; a `KeyError` inside it is caught by the generic
handler and becomes a 500. -/
def get_container_stats_endpoint {C : Type} (st : BackendState C)
    (getStats : C → Except EngineErr RawStats) (server_id : String) :
    Except HTTPError StatsResult :=
  match get_docker_client st server_id with
  | none => Except.error ⟨503, "Docker client not available"⟩
  | some dc =>
    match getStats dc with
    | Except.error EngineErr.notFound => Except.error ⟨404, "Container not found"⟩
    | Except.error (EngineErr.fail e) =>
      Except.error ⟨500, "Failed to get container stats: " ++ e⟩
    | Except.ok stats =>
      match computeStats stats with
      | Except.ok r => Except.ok r
      | Except.error e => Except.error ⟨500, "Failed to get container stats: " ++ e⟩

-- ========== DEPLOYMENT WORKFLOW (deploy_container) ==========

/-- `DeploymentRequest` pydantic model (server.py lines 37-44). -/
structure DeploymentRequest where
  image : String
  tag : String
  container_name : String
  ports : List String
  environment : List String
  volumes : List String
  server_id : String
deriving DecidableEq, Repr

/-- Notification document appended to the `notifications` collection.
The `ntype` field models the document's `type` key. -/
structure Notification where
  id : String
  ntype : String
  title : String
  message : String
  created_at : String
  read : Bool
  server_id : String
deriving DecidableEq, Repr

/-- Arguments passed to `docker_client.containers.run` by `deploy_container`:
image reference, container name, container-port to host-port bindings,
host-path to container-path bind mounts (all mounted read-write), and
environment variables. -/
structure RunArgs where
  image : String
  name : String
  ports : List (String × String)
  volumes : List (String × String)
  environment : List (String × String)
deriving DecidableEq, Repr

/-- Port parsing in `deploy_container` (server.py lines 381-387): entries with
a `:` are split on the first `:` into host and container port; the binding
maps container port to host port; entries without a `:` are skipped.
Returns the bindings and the (unused) `ports` list the source also builds. -/
def parsePorts (ports : List String) : List (String × String) × List String :=
  ports.foldl
    (fun acc pm =>
      match splitFirst ":" pm with
      | some (h, c) => (acc.1 ++ [(c, h)], acc.2 ++ [c])
      | none => acc)
    ([], [])

/-- Volume parsing in `deploy_container` (server.py lines 389-394): entries
with a `:` map host path to container path (bind mode `"rw"` implicit);
malformed entries are skipped. -/
def parseVolumes (volumes : List String) : List (String × String) :=
  volumes.foldl
    (fun acc vm =>
      match splitFirst ":" vm with
      | some (h, c) => acc ++ [(h, c)]
      | none => acc)
    []

/-- Environment parsing in `deploy_container` (server.py lines 396-401):
entries with a `=` are split on the first `=` into key and value; malformed
entries are skipped. -/
def parseEnv (environment : List String) : List (String × String) :=
  environment.foldl
    (fun acc ev =>
      match splitFirst "=" ev with
      | some (k, v) => acc ++ [(k, v)]
      | none => acc)
    []

/-- Success payload of `deploy_container`. -/
structure DeployResp where
  success : Bool
  container_id : String
  container_name : String
  image : String
  server_id : String
  message : String
deriving DecidableEq, Repr

/-- `deploy_container` (server.py lines 365-448): resolve the engine (503 when
absent); pull the image best-effort (the pull outcome is computed and then
discarded — a pull exception is only logged); parse ports, volumes and
environment; create and start the container via the engine collaborator
`run`.  On success return the success payload and append one success
notification; on a create/start failure append one error notification
carrying the error text and return a 500.  `t` models `int(time.time())` and
`now` models `datetime.now().isoformat()`, both passed in explicitly. -/
def deploy_container_endpoint {C : Type} (st : BackendState C)
    (pull : C → String → Except String Unit)
    (run : C → RunArgs → Except String String)
    (dep : DeploymentRequest) (t : Nat) (now : String) :
    Except HTTPError DeployResp × List Notification :=
  match get_docker_client st dep.server_id with
  | none => (Except.error ⟨503, "Docker client not available"⟩, [])
  | some dc =>
    let image_ref := dep.image ++ ":" ++ dep.tag
    let _pullOutcome := pull dc image_ref
    let port_bindings := (parsePorts dep.ports).1
    let volumes := parseVolumes dep.volumes
    let environment := parseEnv dep.environment
    match run dc ⟨image_ref, dep.container_name, port_bindings, volumes, environment⟩ with
    | Except.ok cid =>
      (Except.ok ⟨true, cid, dep.container_name, image_ref, dep.server_id,
        "Container " ++ dep.container_name ++ " deployed successfully"⟩,
       [⟨"deploy-" ++ toString t, "success", "Container Deployed",
         "Successfully deployed " ++ dep.container_name ++ " from " ++ image_ref,
         now, false, dep.server_id⟩])
    | Except.error e =>
      (Except.error ⟨500, "Failed to deploy container: " ++ e⟩,
       [⟨"deploy-error-" ++ toString t, "error", "Deployment Failed",
         "Failed to deploy " ++ dep.container_name ++ ": " ++ e,
         now, false, dep.server_id⟩])

-- ========== REGISTRY CONFIGURATION LISTING (get_registries) ==========

/-- Persisted registry record (the `RegistryConfig` pydantic model / one
document of the `registries` collection). -/
structure RegistryRecord where
  id : String
  name : String
  url : String
  username : Option String
  password : Option String
  active : Bool
deriving DecidableEq, Repr

/-- Registry record as returned by the listing: the MongoDB projection
`{"_id": 0, "password": 0}` removes the password field.  An absent `username`
key of the stored document is modelled as `username = none`. -/
structure RegistryPublic where
  id : String
  name : String
  url : String
  username : Option String
  active : Bool
deriving DecidableEq, Repr

/-- Projection applied by `registries_collection.find({}, {"_id": 0,
"password": 0})`: every field but the password is kept. -/
def stripPassword (r : RegistryRecord) : RegistryPublic :=
  ⟨r.id, r.name, r.url, r.username, r.active⟩

/-- Built-in Docker Hub entry inserted by `get_registries` when no stored
record has id `"dockerhub"` (its document has no username key). -/
def dockerhubDefault : RegistryPublic :=
  ⟨"dockerhub", "Docker Hub", "https://registry.hub.docker.com", none, true⟩

/-- `get_registries` (server.py lines 229-245): project the password away from
every stored record, then prepend the built-in Docker Hub entry when no
record carries id `"dockerhub"`. -/
def get_registries (regs : List RegistryRecord) : List RegistryPublic :=
  let projected := regs.map stripPassword
  if projected.any (fun r => r.id == "dockerhub") then projected
  else dockerhubDefault :: projected

-- ========== IMAGE TAG LISTING AND UPDATE CHECK ==========

/-- One image descriptor inside a tag's `images` list; only its
`architecture` key is read (via `.get("architecture", "amd64")`). -/
structure ImageEntry where
  architecture : Option String
deriving DecidableEq, Repr

/-- One raw entry of the upstream page's `results` list.  `name` is indexed
directly (every Docker Hub result carries it); the remaining keys are read
with fallbacks. -/
structure TagInfo where
  name : String
  last_updated : Option String
  full_size : Option Int
  images : Option (List ImageEntry)
deriving DecidableEq, Repr

/-- Body of a decoded upstream response; `results` is read via
`.get("results", [])`. -/
structure TagPage where
  results : Option (List TagInfo)
deriving DecidableEq, Repr

/-- Outcome of the upstream HTTP round trip `requests.get(api_url,
timeout=10)`: either a response with a status code and decoded body, or a
raised network error (timeout, DNS failure, ...). -/
inductive FetchResult where
  | success : Nat → TagPage → FetchResult
  | netfail : String → FetchResult
deriving Repr

/-- One summarized tag of the endpoint's reply. -/
structure TagOut where
  name : String
  last_updated : Option String
  full_size : Int
  architecture : String
deriving DecidableEq, Repr

/-- Per-tag summary construction of `get_image_tags` (server.py lines
477-483), including the truthiness-guarded architecture lookup
(`tag_info.get("images")` is falsy both when absent and when the list is
empty). -/
def mkTagOut (t : TagInfo) : TagOut :=
  ⟨t.name, t.last_updated, t.full_size.getD 0,
    match t.images with
    | some (e :: _) => e.architecture.getD "amd64"
    | _ => "amd64"⟩

/-- Success payload of `get_image_tags`. -/
structure TagsResp where
  image : String
  registry : String
  tags : List TagOut
  total_count : Nat
deriving DecidableEq, Repr

/-- `get_image_tags` (server.py lines 450-497): resolve the base URL (built-in
for `"dockerhub"`, otherwise looked up in the registries store with a 404
when absent); build the API URL (official images without a `/` go under
`library/`); perform the upstream query.  A 200 yields at most the 20 first
results, summarized; a non-200 is re-raised as an `HTTPException` carrying
the upstream status; a network failure is caught by the generic handler and
becomes a 500. -/
def get_image_tags (regs : List RegistryRecord) (fetch : String → FetchResult)
    (image_name : String) (registry_id : String) : Except HTTPError TagsResp :=
  let base? : Except HTTPError String :=
    if registry_id = "dockerhub" then
      Except.ok "https://registry.hub.docker.com/v2/repositories"
    else
      match regs.find? (fun r => r.id == registry_id) with
      | none => Except.error ⟨404, "Registry not found"⟩
      | some r => Except.ok r.url
  match base? with
  | Except.error e => Except.error e
  | Except.ok base_url =>
    let api_url :=
      if image_name.contains '/' then base_url ++ "/" ++ image_name ++ "/tags/"
      else base_url ++ "/library/" ++ image_name ++ "/tags/"
    match fetch api_url with
    | FetchResult.netfail m =>
      Except.error ⟨500, "Failed to get image tags: " ++ m⟩
    | FetchResult.success status body =>
      if status = 200 then
        let tags := ((body.results.getD []).take 20).map mkTagOut
        Except.ok ⟨image_name, registry_id, tags, tags.length⟩
      else
        Except.error ⟨status, "Registry error: " ++ toString status⟩

/-- Python `str(HTTPException(status, detail))` as produced by Starlette. -/
def httpErrString (e : HTTPError) : String :=
  toString e.status ++ ": " ++ e.detail

/-- Reply of `check_image_updates`; the degraded (error) branch carries no
`current_tag` key, modelled as `none`. -/
structure UpdatesResp where
  image : String
  current_tag : Option String
  available_tags : List TagOut
  has_updates : Bool
  registry : String
  error : Option String
deriving DecidableEq, Repr

/-- `check_image_updates` (server.py lines 664-697): split the image reference
into repository and current tag (default `"latest"`); delegate to
`get_image_tags`; on success report at most 10 tags and whether any listed
tag differs from the current one; any exception (including an
`HTTPException` raised by `get_image_tags`) degrades to an empty tag list
annotated with the stringified error. -/
def check_image_updates (regs : List RegistryRecord) (fetch : String → FetchResult)
    (image_name : String) (registry_id : String) : UpdatesResp :=
  let rc : String × String :=
    match splitFirst ":" image_name with
    | some (r, t) => (r, t)
    | none => (image_name, "latest")
  match get_image_tags regs fetch rc.1 registry_id with
  | Except.ok tr =>
    ⟨image_name, some rc.2, tr.tags.take 10,
      decide (0 < (tr.tags.filter (fun t => t.name ≠ rc.2)).length),
      registry_id, none⟩
  | Except.error e =>
    ⟨image_name, none, [], false, registry_id, some (httpErrString e)⟩

-- ========== HELPER LEMMAS ==========

theorem round2_intCast (n : ℤ) : round2 ((n : ℚ)) = (n : ℚ) := by
  have h : ((n : ℚ)) * 100 = (((n * 100 : ℤ)) : ℚ) := by push_cast; ring
  rw [round2, h, round_intCast]
  push_cast
  field_simp

theorem round2_zero : round2 0 = 0 := by
  simpa using round2_intCast 0

theorem deleteOneById_not_mem (l : List ServerRecord) (sid : String)
    (h : ∀ s ∈ l, s.id ≠ sid) : deleteOneById l sid = (l, 0) := by
  induction l with
  | nil => rfl
  | cons s rest ih =>
    have hs : s.id ≠ sid := h s (List.mem_cons_self s rest)
    have ih' := ih (fun x hx => h x (List.mem_cons_of_mem s hx))
    simp [deleteOneById, hs, ih']

theorem computeStats_cpu (stats : RawStats) (q : ℚ)
    (h : cpuSection stats = Except.ok q) :
    ∃ r, computeStats stats = Except.ok r ∧ r.cpu_percent = round2 q := by
  unfold computeStats
  rw [h]
  exact ⟨_, rfl, rfl⟩

theorem foldl_add_eq_sum {α : Type} (f : α → Int) (l : List α) (a : Int) :
    l.foldl (fun acc x => acc + f x) a = a + (l.map f).sum := by
  induction l generalizing a with
  | nil => simp
  | cons x xs ih => simp [List.foldl, ih, add_assoc]

-- ========== CLAIM THEOREMS ==========

/-- C7 (confirmed): removing the engine id `"local"` always fails with the
fixed 400 validation error `"Cannot remove local server"` and returns the
state unchanged, for every registry state. -/
theorem C7_local_never_removed {C : Type} (st : BackendState C) :
    remove_docker_server st "local" =
      (Except.error ⟨400, "Cannot remove local server"⟩, st) := by
  simp [remove_docker_server]

/-- C8 (counterexample): removing a non-`"local"` engine id with no stored
descriptor does not succeed silently — on a concrete registry holding only
the local client, removing `"ghost"` yields a 404 error (the claim asserts
success without error). -/
theorem C8_counterexample :
    remove_docker_server (⟨[("local", 0)], some 0, []⟩ : BackendState Nat) "ghost" =
      (Except.error ⟨404, "Server not found"⟩, ⟨[("local", 0)], some 0, []⟩) := by
  rfl

/-- C8 (amended): for every engine id other than `"local"` with no stored
descriptor, the remove operation fails with a 404 not-found error and leaves
the whole state (descriptor store and connection table) unmutated. -/
theorem C8_remove_absent_id {C : Type} (st : BackendState C) (sid : String)
    (h1 : sid ≠ "local") (h2 : ∀ s ∈ st.docker_servers, s.id ≠ sid) :
    remove_docker_server st sid = (Except.error ⟨404, "Server not found"⟩, st) := by
  simp [remove_docker_server, h1, deleteOneById_not_mem st.docker_servers sid h2]

theorem C8_remove_absent_id_witness :
    remove_docker_server
        (⟨[], none, [⟨"remote1", "Remote", "host1", 2376, false, none, true⟩]⟩ :
          BackendState Nat) "ghost" =
      (Except.error ⟨404, "Server not found"⟩,
        ⟨[], none, [⟨"remote1", "Remote", "host1", 2376, false, none, true⟩]⟩) :=
  C8_remove_absent_id _ "ghost" (by decide) (by simp)

/-- C10 (confirmed): the registry listing is independent of every stored
password (reassigning passwords arbitrarily does not change the output, so
the output carries no password data), while each stored record's id, name,
url, username and active flag are returned via the projection. -/
theorem C10_passwords_never_listed :
    (∀ (regs : List RegistryRecord) (pwf : RegistryRecord → Option String),
      get_registries (regs.map (fun r => { r with password := pwf r })) =
        get_registries regs) ∧
    (∀ (regs : List RegistryRecord) (r : RegistryRecord), r ∈ regs →
      stripPassword r ∈ get_registries regs) := by
  constructor
  · intro regs pwf
    have hcomp : stripPassword ∘ (fun r => { r with password := pwf r }) = stripPassword :=
      funext fun r => rfl
    simp [get_registries, List.map_map, hcomp]
  · intro regs r hr
    have hm : stripPassword r ∈ regs.map stripPassword := List.mem_map_of_mem _ hr
    unfold get_registries
    by_cases hb : (regs.map stripPassword).any (fun x => x.id == "dockerhub")
    · simpa [hb] using hm
    · simp only [hb]
      exact List.mem_cons_of_mem _ hm

theorem C10_passwords_never_listed_witness :
    get_registries
        (([⟨"r1", "Reg One", "https://reg.example", some "alice", some "hunter2", true⟩] :
            List RegistryRecord).map
          (fun r => { r with password := some "rotated" })) =
      get_registries
        [⟨"r1", "Reg One", "https://reg.example", some "alice", some "hunter2", true⟩] ∧
    stripPassword
        (⟨"r1", "Reg One", "https://reg.example", some "alice", some "hunter2", true⟩ :
          RegistryRecord) ∈
      get_registries
        [⟨"r1", "Reg One", "https://reg.example", some "alice", some "hunter2", true⟩] :=
  ⟨C10_passwords_never_listed.1 _ _, C10_passwords_never_listed.2 _ _ (by simp)⟩

/-- C1 (counterexample): resolving an engine id with no stored connection
does not return `None` — on a registry holding only the local client (id 7)
as both entry and default, resolving the absent id `"ghost"` returns the
local client, and the container-listing consumer proceeds against it instead
of failing with a service-unavailable condition. -/
theorem C1_counterexample :
    dictGet (([("local", 7)] : List (String × Nat))) "ghost" = none ∧
    get_docker_client (⟨[("local", 7)], some 7, []⟩ : BackendState Nat) "ghost" = some 7 ∧
    get_containers_endpoint (⟨[("local", 7)], some 7, []⟩ : BackendState Nat)
      (fun _ => Except.ok (0 : Nat)) "ghost" = Except.ok 0 :=
  ⟨rfl, rfl, rfl⟩

/-- C1 (amended): resolving an engine id with no stored connection falls back
to the default (local) client, yielding `None` only when the default is also
unset; and every consumer operation (container list, image list, stats, logs,
restart, deploy) fails fast with the 503 service-unavailable error exactly
when resolution yields no client, proceeding against no connection in that
case. -/
theorem C1_resolution_fallback_and_fail_fast {C A B : Type}
    (st : BackendState C) (sid : String)
    (listContainers : C → Except String A) (listImages : C → Except String B)
    (getStats : C → Except EngineErr RawStats) (getLogs : C → Except EngineErr String)
    (doRestart : C → Except EngineErr String)
    (pull : C → String → Except String Unit) (run : C → RunArgs → Except String String)
    (dep : DeploymentRequest) (t : Nat) (now : String)
    (hdep : dep.server_id = sid) :
    (dictGet st.docker_clients sid = none →
      get_docker_client st sid = st.default_client) ∧
    (get_docker_client st sid = none →
      get_containers_endpoint st listContainers sid =
        Except.error ⟨503, "Docker client not available"⟩ ∧
      get_images_endpoint st listImages sid =
        Except.error ⟨503, "Docker client not available"⟩ ∧
      get_container_stats_endpoint st getStats sid =
        Except.error ⟨503, "Docker client not available"⟩ ∧
      get_container_logs_endpoint st getLogs sid =
        Except.error ⟨503, "Docker client not available"⟩ ∧
      restart_container_endpoint st doRestart sid =
        Except.error ⟨503, "Docker client not available"⟩ ∧
      deploy_container_endpoint st pull run dep t now =
        (Except.error ⟨503, "Docker client not available"⟩, [])) := by
  constructor
  · intro h
    simp [get_docker_client, h]
  · intro h
    refine ⟨?_, ?_, ?_, ?_, ?_, ?_⟩
    · simp [get_containers_endpoint, h]
    · simp [get_images_endpoint, h]
    · simp [get_container_stats_endpoint, h]
    · simp [get_container_logs_endpoint, h]
    · simp [restart_container_endpoint, h]
    · simp [deploy_container_endpoint, hdep, h]

theorem C1_resolution_fallback_and_fail_fast_witness :
    get_containers_endpoint (⟨[], none, []⟩ : BackendState Nat)
        (fun _ => Except.ok (0 : Nat)) "x" =
      Except.error ⟨503, "Docker client not available"⟩ ∧
    deploy_container_endpoint (⟨[], none, []⟩ : BackendState Nat)
        (fun _ _ => Except.ok ()) (fun _ _ => Except.ok "cid")
        ⟨"nginx", "latest", "web", [], [], [], "x"⟩ 0 "2026-01-01" =
      (Except.error ⟨503, "Docker client not available"⟩, []) := by
  have h := (C1_resolution_fallback_and_fail_fast
    (⟨[], none, []⟩ : BackendState Nat) "x"
    (fun _ => Except.ok (0 : Nat)) (fun _ => Except.ok (0 : Nat))
    (fun _ => Except.error EngineErr.notFound) (fun _ => Except.ok "")
    (fun _ => Except.ok "") (fun _ _ => Except.ok ()) (fun _ _ => Except.ok "cid")
    ⟨"nginx", "latest", "web", [], [], [], "x"⟩ 0 "2026-01-01" rfl).2 rfl
  exact ⟨h.1, h.2.2.2.2.2⟩

/-- C2 (counterexample): a snapshot pair whose CPU sub-documents are present
but carry no `system_cpu_usage` field makes the metrics computation raise a
`KeyError` (surfaced as a 500) instead of yielding `cpu_percent = 0` without
error, contradicting the claim's "in every other case cpu_percent is 0 and
no error is raised". -/
theorem C2_counterexample :
    computeStats ⟨some ⟨some ⟨some 0, none⟩, none⟩, some ⟨some ⟨some 0, none⟩, none⟩,
        none, none, none⟩ =
      Except.error "KeyError: system_cpu_usage" :=
  rfl

/-- C2 (amended): when both snapshots carry CPU sub-documents with their
total, system and per-core fields present, `cpu_percent` equals the CPU delta
divided by the system delta, times the per-core count, times 100, rounded to
2 decimal digits, when the system delta is strictly positive, and `0`
otherwise; and when either snapshot lacks its CPU sub-document (or the
sub-document's `cpu_usage` key), `cpu_percent` is `0` and no error is raised.
A present CPU sub-document missing one of its counter fields raises instead
(see the counterexample). -/
theorem C2_cpu_percent_formula :
    (∀ (stats : RawStats) (cs ps : CpuStats) (cu pu : CpuUsage)
        (ct pt s1 s0 : Int) (l : List Int),
      stats.cpu_stats = some cs → stats.precpu_stats = some ps →
      cs.cpu_usage = some cu → ps.cpu_usage = some pu →
      cu.total_usage = some ct → pu.total_usage = some pt →
      cs.system_cpu_usage = some s1 → ps.system_cpu_usage = some s0 →
      cu.percpu_usage = some l →
      ∃ r, computeStats stats = Except.ok r ∧
        r.cpu_percent =
          (if s1 - s0 > 0
           then round2 ((((ct - pt : Int) : ℚ) / ((s1 - s0 : Int) : ℚ)) * (l.length : ℚ) * 100)
           else 0)) ∧
    (∀ stats : RawStats,
      (stats.cpu_stats = none ∨ stats.precpu_stats = none ∨
        (∃ cs, stats.cpu_stats = some cs ∧ cs.cpu_usage = none) ∨
        (∃ ps, stats.precpu_stats = some ps ∧ ps.cpu_usage = none)) →
      ∃ r, computeStats stats = Except.ok r ∧ r.cpu_percent = 0) := by
  constructor
  · intro stats cs ps cu pu ct pt s1 s0 l h1 h2 h3 h4 h5 h6 h7 h8 h9
    by_cases hpos : s1 - s0 > 0
    · have hc : cpuSection stats =
          Except.ok ((((ct - pt : Int) : ℚ) / ((s1 - s0 : Int) : ℚ)) * (l.length : ℚ) * 100) := by
        simp [cpuSection, h1, h2, h3, h4, h5, h6, h7, h8, h9, hpos]
      obtain ⟨r, hr, hcp⟩ := computeStats_cpu stats _ hc
      exact ⟨r, hr, by rw [hcp, if_pos hpos]⟩
    · have hc : cpuSection stats = Except.ok 0 := by
        simp [cpuSection, h1, h2, h3, h4, h5, h6, h7, h8, hpos]
      obtain ⟨r, hr, hcp⟩ := computeStats_cpu stats _ hc
      exact ⟨r, hr, by rw [hcp, if_neg hpos, round2_zero]⟩
  · intro stats hcase
    have hc : cpuSection stats = Except.ok 0 := by
      rcases hcase with h | h | ⟨cs, h, hcu⟩ | ⟨ps, h, hpu⟩
      · cases h2 : stats.precpu_stats <;> simp [cpuSection, h, h2]
      · cases h1 : stats.cpu_stats <;> simp [cpuSection, h, h1]
      · cases h2 : stats.precpu_stats with
        | none => simp [cpuSection, h, h2]
        | some ps =>
          cases hpu : ps.cpu_usage <;> simp [cpuSection, h, h2, hcu, hpu]
      · cases h1 : stats.cpu_stats with
        | none => simp [cpuSection, h, h1]
        | some cs =>
          cases hcu : cs.cpu_usage <;> simp [cpuSection, h, h1, hcu, hpu]
    obtain ⟨r, hr, hcp⟩ := computeStats_cpu stats _ hc
    exact ⟨r, hr, by rw [hcp, round2_zero]⟩

theorem C2_cpu_percent_formula_witness :
    ∃ r,
      computeStats ⟨some ⟨some ⟨some 300000000, some [0, 0, 0, 0]⟩, some 3000000000⟩,
          some ⟨some ⟨some 100000000, none⟩, some 1000000000⟩, none, none, none⟩ =
        Except.ok r ∧
      r.cpu_percent = 40 := by
  obtain ⟨r, hr, hcp⟩ := C2_cpu_percent_formula.1
    ⟨some ⟨some ⟨some 300000000, some [0, 0, 0, 0]⟩, some 3000000000⟩,
      some ⟨some ⟨some 100000000, none⟩, some 1000000000⟩, none, none, none⟩
    ⟨some ⟨some 300000000, some [0, 0, 0, 0]⟩, some 3000000000⟩
    ⟨some ⟨some 100000000, none⟩, some 1000000000⟩
    ⟨some 300000000, some [0, 0, 0, 0]⟩ ⟨some 100000000, none⟩
    300000000 100000000 3000000000 1000000000 [0, 0, 0, 0]
    rfl rfl rfl rfl rfl rfl rfl rfl rfl
  refine ⟨r, hr, ?_⟩
  rw [hcp, if_pos (by norm_num)]
  have h40 : ((((300000000 - 100000000 : Int) : ℚ)) / (((3000000000 - 1000000000 : Int) : ℚ)) *
      ((List.length [(0 : Int), 0, 0, 0] : Nat) : ℚ) * 100) = ((40 : ℤ) : ℚ) := by
    norm_num
  rw [h40, round2_intCast]
  norm_num

/-- C3 (counterexample): a raw document whose CPU sub-documents are complete
except for the per-core usage list (and whose system delta is strictly
positive) makes the metrics computation raise a `KeyError` even though the
engine produced a snapshot — the per-core lookup has no zero-value
fallback, contradicting the claim. -/
theorem C3_counterexample :
    computeStats ⟨some ⟨some ⟨some 10, none⟩, some 2000⟩,
        some ⟨some ⟨some 0, none⟩, some 1000⟩, none, none, none⟩ =
      Except.error "KeyError: percpu_usage" :=
  rfl

/-- C3 (amended): the metrics computation succeeds exactly when the CPU
section's direct dictionary indexes succeed: lookups outside the CPU
sub-documents (memory, networks, and the presence tests for the CPU
sub-documents themselves) always have zero-value fallbacks, but within
present CPU sub-documents the `total_usage`, `system_cpu_usage` and (when
the system delta is strictly positive) `percpu_usage` lookups have no
fallback and their absence raises an error that is surfaced as a fault. -/
theorem C3_metrics_totality (stats : RawStats) :
    exOk (computeStats stats) = cpuLookupsOk stats := by
  have hred : exOk (computeStats stats) = exOk (cpuSection stats) := by
    cases h : cpuSection stats <;> simp [computeStats, h, exOk]
  rw [hred]
  rcases stats with ⟨c1, c2, m, n, b⟩
  rcases c1 with _ | ⟨cu1, sy1⟩
  · cases c2 <;> rfl
  rcases c2 with _ | ⟨cu2, sy2⟩
  · rfl
  rcases cu1 with _ | ⟨t1, p1⟩
  · cases cu2 <;> rfl
  rcases cu2 with _ | ⟨t2, p2⟩
  · rfl
  rcases t1 with _ | ct
  · cases t2 <;> rfl
  rcases t2 with _ | pt
  · rfl
  rcases sy1 with _ | s1
  · cases sy2 <;> rfl
  rcases sy2 with _ | s0
  · rfl
  by_cases hpos : s1 - s0 > 0
  · cases p1 <;> simp [cpuSection, cpuLookupsOk, exOk, hpos]
  · simp [cpuSection, cpuLookupsOk, exOk, hpos]

/-- C4 (confirmed): for every snapshot on which the metrics computation
succeeds, `memory_percent` equals usage divided by limit times 100 rounded to
2 decimal digits when the limit is positive and `0` when the limit is `0` or
the memory sub-document is absent, and the raw usage and limit values are
passed through unmodified in the result (with the `.get(_, 0)` fallbacks of
the source). -/
theorem C4_memory_percent (stats : RawStats) (r : StatsResult)
    (h : computeStats stats = Except.ok r) :
    (∀ ms : MemoryStats, stats.memory_stats = some ms →
      r.memory_usage = ms.usage.getD 0 ∧ r.memory_limit = ms.limit.getD 0 ∧
      r.memory_percent =
        (if ms.limit.getD 0 > 0
         then round2 (((ms.usage.getD 0 : Int) : ℚ) / ((ms.limit.getD 0 : Int) : ℚ) * 100)
         else 0)) ∧
    (stats.memory_stats = none →
      r.memory_usage = 0 ∧ r.memory_limit = 0 ∧ r.memory_percent = 0) := by
  cases hc : cpuSection stats with
  | error e => simp [computeStats, hc] at h
  | ok q =>
    simp only [computeStats, hc] at h
    have h2 := (Except.ok.inj h).symm
    subst h2
    constructor
    · intro ms hms
      refine ⟨by simp [hms], by simp [hms], ?_⟩
      simp only [hms]
      rw [apply_ite round2, round2_zero]
    · intro hms
      simp [hms, round2_zero]

theorem C4_memory_percent_witness :
    ∃ r, computeStats ⟨none, none, some ⟨some 500, some 1000⟩, none, none⟩ =
        Except.ok r ∧
      r.memory_usage = 500 ∧ r.memory_limit = 1000 ∧ r.memory_percent = 50 := by
  have hc : computeStats ⟨none, none, some ⟨some 500, some 1000⟩, none, none⟩ =
      Except.ok ⟨0, 500, 1000, 50, 0, 0⟩ := by
    have h50 : round2 (((500 : Int) : ℚ) / ((1000 : Int) : ℚ) * 100) = ((50 : ℤ) : ℚ) := by
      have : (((500 : Int) : ℚ) / ((1000 : Int) : ℚ) * 100) = ((50 : ℤ) : ℚ) := by norm_num
      rw [this, round2_intCast]
    simp [computeStats, cpuSection, round2_zero]
    norm_num [round2]
  obtain ⟨hmem, -⟩ := C4_memory_percent _ _ hc
  have h := hmem ⟨some 500, some 1000⟩ rfl
  refine ⟨⟨0, 500, 1000, 50, 0, 0⟩, hc, h.1, h.2.1, h.2.2.trans ?_⟩
  rw [if_pos (by norm_num)]
  have e1 : ((Option.getD (some (500 : Int)) 0 : Int) : ℚ) /
      ((Option.getD (some (1000 : Int)) 0 : Int) : ℚ) * 100 = ((50 : ℤ) : ℚ) := by
    norm_num
  rw [e1, round2_intCast]
  norm_num

/-- C5 (counterexample): the stats result contains no block-I/O totals — two
raw documents that differ only in their block-I/O list (one with a `Read`
entry of value 100, one with none) produce identical stats results, although
the read totals the claim describes differ, so no component of the result
equals the claimed read total. -/
theorem C5_counterexample :
    computeStats ⟨none, none, none, some [⟨some 10, some 20⟩], some [⟨"Read", 100⟩]⟩ =
      computeStats ⟨none, none, none, some [⟨some 10, some 20⟩], none⟩ ∧
    specBlkioReadTotal ⟨none, none, none, some [⟨some 10, some 20⟩], some [⟨"Read", 100⟩]⟩ ≠
      specBlkioReadTotal ⟨none, none, none, some [⟨some 10, some 20⟩], none⟩ :=
  ⟨rfl, by decide⟩

/-- C5 (amended): the stats result contains network receive and transmit
totals equal to the sum of `rx_bytes` and `tx_bytes` over every reported
interface (each `0`, never an error, when the collection is empty or
absent), but no block-I/O totals at all: the computation is independent of
the raw document's block-I/O list, which the code never reads. -/
theorem C5_network_totals_blkio_ignored :
    (∀ (stats : RawStats) (r : StatsResult), computeStats stats = Except.ok r →
      (∀ ifs : List NetworkIf, stats.networks = some ifs →
        r.network_rx = (ifs.map (fun i => i.rx_bytes.getD 0)).sum ∧
        r.network_tx = (ifs.map (fun i => i.tx_bytes.getD 0)).sum) ∧
      (stats.networks = none → r.network_rx = 0 ∧ r.network_tx = 0)) ∧
    (∀ (stats : RawStats) (blk : Option (List BlkioEntry)),
      computeStats { stats with blkio_stats := blk } = computeStats stats) := by
  constructor
  · intro stats r h
    cases hc : cpuSection stats with
    | error e => simp [computeStats, hc] at h
    | ok q =>
      simp only [computeStats, hc] at h
      have h2 := (Except.ok.inj h).symm
      subst h2
      constructor
      · intro ifs hifs
        constructor
        · simp only [hifs]
          rw [foldl_add_eq_sum]
          simp
        · simp only [hifs]
          rw [foldl_add_eq_sum]
          simp
      · intro hifs
        simp [hifs]
  · intro stats blk
    rcases stats with ⟨c1, c2, m, n, b⟩
    rfl

theorem C5_network_totals_blkio_ignored_witness :
    ∃ r, computeStats ⟨none, none, none, some [⟨some 10, some 20⟩, ⟨none, some 5⟩], none⟩ =
        Except.ok r ∧
      r.network_rx = 10 ∧ r.network_tx = 25 := by
  have hc : computeStats ⟨none, none, none, some [⟨some 10, some 20⟩, ⟨none, some 5⟩], none⟩ =
      Except.ok ⟨0, 0, 0, 0, 10, 25⟩ := by
    simp [computeStats, cpuSection, round2_zero]
  have h := (C5_network_totals_blkio_ignored.1 _ _ hc).1 [⟨some 10, some 20⟩, ⟨none, some 5⟩] rfl
  exact ⟨⟨0, 0, 0, 0, 10, 25⟩, hc, h.1.trans (by decide), h.2.trans (by decide)⟩

/-- C6 (confirmed): for every resolvable deployment, the outcome is
independent of the image-pull step (the pull collaborator is arbitrary, so a
pull failure never aborts the workflow): when create/start succeeds the
deployment returns the success payload with exactly one success notification,
and when create/start fails the deployment returns a 500 failure and appends
exactly one failure notification carrying the error text. -/
theorem C6_pull_best_effort {C : Type} (st : BackendState C)
    (dep : DeploymentRequest) (dc : C)
    (pull : C → String → Except String Unit) (run : C → RunArgs → Except String String)
    (t : Nat) (now : String)
    (hdc : get_docker_client st dep.server_id = some dc) :
    (∀ cid : String,
      run dc ⟨dep.image ++ ":" ++ dep.tag, dep.container_name,
        (parsePorts dep.ports).1, parseVolumes dep.volumes, parseEnv dep.environment⟩ =
          Except.ok cid →
      deploy_container_endpoint st pull run dep t now =
        (Except.ok ⟨true, cid, dep.container_name, dep.image ++ ":" ++ dep.tag,
          dep.server_id, "Container " ++ dep.container_name ++ " deployed successfully"⟩,
         [⟨"deploy-" ++ toString t, "success", "Container Deployed",
           "Successfully deployed " ++ dep.container_name ++ " from " ++
             (dep.image ++ ":" ++ dep.tag),
           now, false, dep.server_id⟩])) ∧
    (∀ e : String,
      run dc ⟨dep.image ++ ":" ++ dep.tag, dep.container_name,
        (parsePorts dep.ports).1, parseVolumes dep.volumes, parseEnv dep.environment⟩ =
          Except.error e →
      deploy_container_endpoint st pull run dep t now =
        (Except.error ⟨500, "Failed to deploy container: " ++ e⟩,
         [⟨"deploy-error-" ++ toString t, "error", "Deployment Failed",
           "Failed to deploy " ++ dep.container_name ++ ": " ++ e,
           now, false, dep.server_id⟩])) := by
  constructor
  · intro cid hrun
    simp [deploy_container_endpoint, hdc, hrun]
  · intro e hrun
    simp [deploy_container_endpoint, hdc, hrun]

theorem C6_pull_best_effort_witness :
    deploy_container_endpoint (⟨[("local", 0)], some 0, []⟩ : BackendState Nat)
        (fun _ _ => Except.error "pull failed: no network")
        (fun _ _ => Except.ok "cid123")
        ⟨"nginx", "latest", "web", [], [], [], "local"⟩ 5 "2026-01-01" =
      (Except.ok ⟨true, "cid123", "web", "nginx:latest", "local",
        "Container web deployed successfully"⟩,
       [⟨"deploy-5", "success", "Container Deployed",
         "Successfully deployed web from nginx:latest", "2026-01-01", false, "local"⟩]) :=
  (C6_pull_best_effort (⟨[("local", 0)], some 0, []⟩ : BackendState Nat)
    ⟨"nginx", "latest", "web", [], [], [], "local"⟩ 0
    (fun _ _ => Except.error "pull failed: no network") (fun _ _ => Except.ok "cid123")
    5 "2026-01-01" rfl).1 "cid123" rfl

/-- C9 (counterexample): a non-200 upstream response is surfaced as a hard
failure of the tag-listing endpoint itself — with the upstream returning 503,
`get_image_tags` raises an HTTP error carrying that status instead of
degrading to an empty tag list. -/
theorem C9_counterexample :
    get_image_tags [] (fun _ => FetchResult.success 503 ⟨none⟩) "nginx" "dockerhub" =
      Except.error ⟨503, "Registry error: 503"⟩ :=
  rfl

/-- C9 (amended): an upstream network failure or non-200 response degrades to
an empty tag list annotated with the error only in the update-check endpoint;
the tag-listing endpoint itself surfaces them as hard failures — a non-200
propagates as an HTTP error carrying the upstream status and a network
failure becomes a 500 error. -/
theorem C9_upstream_failure_handling
    (regs : List RegistryRecord) (name : String) (s : Nat) (body : TagPage)
    (m : String) (hs : s ≠ 200) :
    (get_image_tags regs (fun _ => FetchResult.success s body) name "dockerhub" =
        Except.error ⟨s, "Registry error: " ++ toString s⟩ ∧
      get_image_tags regs (fun _ => FetchResult.netfail m) name "dockerhub" =
        Except.error ⟨500, "Failed to get image tags: " ++ m⟩) ∧
    (check_image_updates regs (fun _ => FetchResult.success s body) name "dockerhub" =
        ⟨name, none, [], false, "dockerhub",
          some (httpErrString ⟨s, "Registry error: " ++ toString s⟩)⟩ ∧
      check_image_updates regs (fun _ => FetchResult.netfail m) name "dockerhub" =
        ⟨name, none, [], false, "dockerhub",
          some (httpErrString ⟨500, "Failed to get image tags: " ++ m⟩)⟩) := by
  refine ⟨⟨?_, ?_⟩, ?_, ?_⟩
  · simp [get_image_tags, hs]
  · simp [get_image_tags]
  · simp [check_image_updates, get_image_tags, hs]
  · simp [check_image_updates, get_image_tags]

theorem C9_upstream_failure_handling_witness :
    get_image_tags [] (fun _ => FetchResult.netfail "connection timed out") "nginx"
        "dockerhub" =
      Except.error ⟨500, "Failed to get image tags: connection timed out"⟩ ∧
    check_image_updates [] (fun _ => FetchResult.success 429 ⟨none⟩) "nginx:latest"
        "dockerhub" =
      ⟨"nginx:latest", none, [], false, "dockerhub",
        some (httpErrString ⟨429, "Registry error: 429"⟩)⟩ :=
  ⟨(C9_upstream_failure_handling [] "nginx" 429 ⟨none⟩ "connection timed out"
      (by decide)).1.2,
   (C9_upstream_failure_handling [] "nginx:latest" 429 ⟨none⟩ "connection timed out"
      (by decide)).2.1⟩

end MiniFleet
